import Mathlib

/-!
Shallow embedding of FirefoxSyncXHRPolyfix.js (the event-deferral-and-replay
engine that blocks async XHR events and postMessages while a sync XHR is in
flight), together with theorems settling the frozen claims C1..C10 about it.

Modelling conventions:
* JS numbers used as counters are `Int` (JS `--`/`++` never truncates at 0).
* JS `undefined` is `Option.none`; a WeakMap is an explicit `Option`-valued
  association (per request) or, for concrete scenarios, a function from
  request ids.
* A blocked-event replay closure (`currentlyBlockedEvents` element) is
  modelled by `Evt`: an id (to record invocation order), whether invoking it
  raises an exception, and the closures it pushes onto the queue while it
  runs (a replayed handler may itself queue more events or messages).
  A throwing closure is modelled as raising before any push takes effect.
-/

/-- A blocked-event replay closure: id, whether its invocation raises,
and the closures its invocation appends to `currentlyBlockedEvents`. -/
inductive Evt : Type where
  | mk : Nat → Bool → List Evt → Evt

/-- Identifier of a blocked closure (used only to record invocation order). -/
def Evt.id : Evt → Nat
  | .mk i _ _ => i

/-- Whether invoking this closure raises an exception. -/
def Evt.raises : Evt → Bool
  | .mk _ t _ => t

/-- The closures this closure pushes onto the queue when invoked. -/
def Evt.pushes : Evt → List Evt
  | .mk _ _ ps => ps

mutual

/-- Size of one closure tree (for termination of the drain loop). -/
def Evt.size : Evt → Nat
  | .mk _ _ ps => 1 + Evt.sizeList ps

/-- Total size of a queue of closure trees. -/
def Evt.sizeList : List Evt → Nat
  | [] => 0
  | e :: es => Evt.size e + Evt.sizeList es

end

theorem Evt.sizeList_append (l₁ l₂ : List Evt) :
    Evt.sizeList (l₁ ++ l₂) = Evt.sizeList l₁ + Evt.sizeList l₂ := by
  induction l₁ with
  | nil => simp [Evt.sizeList]
  | cons e es ih => simp [Evt.sizeList, ih]; omega

theorem Evt.size_eq (e : Evt) : Evt.size e = 1 + Evt.sizeList e.pushes := by
  cases e; rfl

/-- The `while (currentlyBlockedEvents.length)` loop of
`unblockEventsIfNecessary` (src lines 149-153): shift the first closure off
the queue and invoke it; an invoked closure may append further closures,
which the loop picks up because it re-checks the length each iteration.
Returns the ids of the closures invoked, in invocation order, together with
`none` if the loop ran to completion or `some rem` if an invocation raised,
where `rem` is the queue content left behind when the exception unwound the
loop (the raising closure was already shifted off). -/
def drainLoop : List Evt → List Nat × Option (List Evt)
  | [] => ([], none)
  | e :: rest =>
    if e.raises then ([e.id], some rest)
    else
      let r := drainLoop (rest ++ e.pushes)
      (e.id :: r.1, r.2)
termination_by q => Evt.sizeList q
decreasing_by
  simp [Evt.sizeList, Evt.sizeList_append, Evt.size_eq e]
  omega

/-- The closures appended by one generation of the queue, in the order
their invocations push them. -/
def nextGen : List Evt → List Evt
  | [] => []
  | e :: rest => e.pushes ++ nextGen rest

theorem drainLoop_nil : drainLoop [] = ([], none) := by
  simp [drainLoop]

theorem drainLoop_cons_ok (e : Evt) (rest : List Evt) (h : e.raises = false) :
    drainLoop (e :: rest) =
      (e.id :: (drainLoop (rest ++ e.pushes)).1, (drainLoop (rest ++ e.pushes)).2) := by
  rw [drainLoop]
  simp [h]

theorem drainLoop_cons_raises (e : Evt) (rest : List Evt) (h : e.raises = true) :
    drainLoop (e :: rest) = ([e.id], some rest) := by
  rw [drainLoop]
  simp [h]

/-- Generation lemma for the drain loop: all closures currently in the queue
are invoked first, in queue order, and only then the closures they pushed
(which were appended behind the then-current queue). -/
theorem drainLoop_generation (q₁ : List Evt) (h : ∀ e ∈ q₁, e.raises = false) :
    ∀ q₂ : List Evt,
      (drainLoop (q₁ ++ q₂)).1 =
        q₁.map Evt.id ++ (drainLoop (q₂ ++ nextGen q₁)).1 := by
  induction q₁ with
  | nil => intro q₂; simp [nextGen]
  | cons e rest ih =>
    intro q₂
    have he : e.raises = false := h e (List.mem_cons_self e rest)
    have hrest : ∀ x ∈ rest, x.raises = false := fun x hx => h x (List.mem_cons_of_mem e hx)
    rw [List.cons_append, drainLoop_cons_ok e (rest ++ q₂) he]
    have step := ih hrest (q₂ ++ e.pushes)
    simp only [List.append_assoc] at step
    simp [nextGen, step, List.append_assoc]

/-- C1: for every two items queued during one blocking window, with s1 pushed
before s2, the drain invokes s1's replay closure (running it to completion,
its own pushes landing at the back of the queue) before s2's closure begins:
the invocation log starts with the ids of the queued closures in exactly
their push order, followed by the closures appended by handlers replayed
during the same drain pass, again in push order (the generation equation,
which applies again to each later generation); in particular the closure at
queue position i is invocation number i. Stated for a drain pass in which
the replayed handlers return normally. -/
theorem c1_drain_runs_in_push_order (q : List Evt) (h : ∀ e ∈ q, e.raises = false) :
    (drainLoop q).1 = q.map Evt.id ++ (drainLoop (nextGen q)).1 ∧
      ∀ i : Fin q.length, (drainLoop q).1[i.val]? = some (q.get i).id := by
  have hgen := drainLoop_generation q h []
  rw [List.append_nil, List.nil_append] at hgen
  refine ⟨hgen, fun i => ?_⟩
  rw [hgen, List.getElem?_append_left (by simp [i.isLt]), List.getElem?_map,
    List.getElem?_eq_getElem i.isLt]
  simp [List.get_eq_getElem]

def c1ExampleQueue : List Evt :=
  [Evt.mk 1 false [Evt.mk 3 false []], Evt.mk 2 false []]

theorem c1_drain_runs_in_push_order_witness :
    (∀ e ∈ c1ExampleQueue, e.raises = false) ∧
      ((drainLoop c1ExampleQueue).1 =
          c1ExampleQueue.map Evt.id ++ (drainLoop (nextGen c1ExampleQueue)).1 ∧
        ∀ i : Fin c1ExampleQueue.length,
          (drainLoop c1ExampleQueue).1[i.val]? = some (c1ExampleQueue.get i).id) :=
  ⟨by decide, c1_drain_runs_in_push_order c1ExampleQueue (by decide)⟩

/-- The polyfix's global coordination state (src lines 142, 161-163):
`currentlyBlockingOnSyncXHRs` (depth), `mustUnblockEventsNow`,
`unblockingEvents` (the actively-draining guard) and
`currentlyBlockedEvents` (the FIFO queue). `log` records, in order, the ids
of the blocked closures that have been invoked by drains so far (it is the
observation added by the embedding, not program state). -/
structure PState where
  depth : Int
  mustUnblockEventsNow : Bool
  unblockingEvents : Bool
  queue : List Evt
  log : List Nat

/-- The initial global state (src lines 142, 161-163): all counters zero,
flags false. `currentlyBlockedEvents` starts undefined in the source and is
assigned a fresh array before first use; the empty list stands for it. -/
def pInit : PState :=
  { depth := 0, mustUnblockEventsNow := false, unblockingEvents := false,
    queue := [], log := [] }

/-- src lines 143-159, `unblockEventsIfNecessary`: if `mustUnblockEventsNow`
is set, clear it; then, unless `unblockingEvents` is already set, set it and
run the drain loop. On normal completion of the loop the source executes
line 154, which assigns `unblockingEvents = true` again (it does not clear
the guard), and decrements `currentlyBlockingOnSyncXHRs`. If a replayed
closure raises, the exception unwinds the function before line 154 and the
decrement: the queue keeps the remaining closures, the guard stays set, and
the exception propagates to the caller (the returned Bool). -/
def unblockEventsIfNecessary (s : PState) : PState × Bool :=
  if s.mustUnblockEventsNow then
    let s₁ : PState := { s with mustUnblockEventsNow := false }
    if s₁.unblockingEvents then (s₁, false)
    else
      let r := drainLoop s₁.queue
      match r.2 with
      | none =>
        ({ s₁ with unblockingEvents := true, queue := [],
                   log := s₁.log ++ r.1, depth := s₁.depth - 1 }, false)
      | some rem =>
        ({ s₁ with unblockingEvents := true, queue := rem,
                   log := s₁.log ++ r.1 }, true)
  else (s, false)

/-- One observable step of the patched program, used to model arbitrary
interleavings of the polyfix's entry points:
* `unblock` — a scheduled drain turn firing (the `Promise.resolve().then`
  callback of src line 200, or any other call to `unblockEventsIfNecessary`);
* `beginSend` — the prefix of the sync branch of the patched `send` up to
  the call into the host `send` (src lines 175-178): forced pre-call drain,
  `currentlyBlockingOnSyncXHRs++`, `currentlyBlockedEvents = []`. If the
  pre-call drain raises, the increment and the queue reset do not happen
  (the exception propagates out of `send`);
* `endSend` — the suffix of the sync branch after the host `send` returned
  or threw (src lines 189-201): if depth is exactly 1, set
  `mustUnblockEventsNow` and schedule a drain turn;
* `push e` — a blocked async XHR event (src line 283) or blocked
  postMessage (src line 226) being appended to the queue. -/
inductive Op : Type where
  | unblock : Op
  | beginSend : Op
  | endSend : Op
  | push : Evt → Op

/-- Interpret one step on the global state. -/
def runOp : Op → PState → PState
  | .unblock, s => (unblockEventsIfNecessary s).1
  | .beginSend, s =>
    let r := unblockEventsIfNecessary s
    if r.2 then r.1
    else { r.1 with depth := r.1.depth + 1, queue := [] }
  | .endSend, s =>
    if s.depth == 1 then { s with mustUnblockEventsNow := true } else s
  | .push e, s => { s with queue := s.queue ++ [e] }

/-- Interpret a sequence of steps, first step first. -/
def runOps : List Op → PState → PState
  | [], s => s
  | o :: os, s => runOps os (runOp o s)

theorem unblock_skips_when_guard_set (s : PState) (hg : s.unblockingEvents = true) :
    (unblockEventsIfNecessary s).1.log = s.log ∧
      (unblockEventsIfNecessary s).1.unblockingEvents = true ∧
      (unblockEventsIfNecessary s).2 = false := by
  cases hmu : s.mustUnblockEventsNow <;>
    simp [unblockEventsIfNecessary, hmu, hg]

theorem runOp_guard_preserved (o : Op) (s : PState) (hg : s.unblockingEvents = true) :
    (runOp o s).log = s.log ∧ (runOp o s).unblockingEvents = true := by
  cases o with
  | unblock =>
    have h := unblock_skips_when_guard_set s hg
    exact ⟨h.1, h.2.1⟩
  | beginSend =>
    have h := unblock_skips_when_guard_set s hg
    simp only [runOp, h.2.2, Bool.false_eq_true, if_false]
    exact ⟨h.1, h.2.1⟩
  | endSend =>
    by_cases hd : s.depth == 1 <;> simp [runOp, hd, hg]
  | push e =>
    simp [runOp, hg]

/-- Once the `unblockingEvents` guard is set, no later step of the program
ever invokes a queued closure again (the invocation log never grows), and
nothing in the program ever clears the guard. -/
theorem guard_set_no_more_deliveries (s : PState) (hg : s.unblockingEvents = true) :
    ∀ ops : List Op,
      (runOps ops s).log = s.log ∧ (runOps ops s).unblockingEvents = true := by
  intro ops
  induction ops generalizing s with
  | nil => exact ⟨rfl, hg⟩
  | cons o os ih =>
    have h := runOp_guard_preserved o s hg
    have h₂ := ih (runOp o s) h.2
    exact ⟨h₂.1.trans h.1, h₂.2⟩

/-- C10: if a replayed closure raises during a drain, the drain loop is
abandoned: the exception propagates out of `unblockEventsIfNecessary`, the
closures still queued at that point are not invoked and stay in the queue,
`currentlyBlockingOnSyncXHRs` is not decremented, the `unblockingEvents`
guard remains set, and (because nothing ever clears the guard) no later
step of the program — drains, sends, pushes, in any order — ever invokes a
queued closure again. -/
theorem c10_exception_abandons_drain (s : PState) (lg : List Nat) (rem : List Evt)
    (hm : s.mustUnblockEventsNow = true) (hg : s.unblockingEvents = false)
    (hd : drainLoop s.queue = (lg, some rem)) :
    (unblockEventsIfNecessary s).2 = true ∧
      (unblockEventsIfNecessary s).1.queue = rem ∧
      (unblockEventsIfNecessary s).1.log = s.log ++ lg ∧
      (unblockEventsIfNecessary s).1.depth = s.depth ∧
      (unblockEventsIfNecessary s).1.unblockingEvents = true ∧
      ∀ ops : List Op,
        (runOps ops (unblockEventsIfNecessary s).1).log =
          (unblockEventsIfNecessary s).1.log := by
  have hres : unblockEventsIfNecessary s =
      ({ s with mustUnblockEventsNow := false, unblockingEvents := true,
                queue := rem, log := s.log ++ lg }, true) := by
    simp [unblockEventsIfNecessary, hm, hg, hd]
  rw [hres]
  refine ⟨rfl, rfl, rfl, rfl, rfl, fun ops => ?_⟩
  exact (guard_set_no_more_deliveries _ rfl ops).1

def evtA : Evt := Evt.mk 1 false []
def evtRaise : Evt := Evt.mk 2 true []
def evtC : Evt := Evt.mk 3 false []
def evtB : Evt := Evt.mk 5 false []

/-- State at a drain turn whose queue holds a closure that raises. -/
def c10State : PState :=
  { depth := 1, mustUnblockEventsNow := true, unblockingEvents := false,
    queue := [evtA, evtRaise, evtC], log := [] }

theorem c10_exception_abandons_drain_witness :
    c10State.mustUnblockEventsNow = true ∧
      c10State.unblockingEvents = false ∧
      drainLoop c10State.queue = ([1, 2], some [evtC]) ∧
      (unblockEventsIfNecessary c10State).2 = true ∧
      (unblockEventsIfNecessary c10State).1.queue = [evtC] ∧
      (unblockEventsIfNecessary c10State).1.log = c10State.log ++ [1, 2] ∧
      (unblockEventsIfNecessary c10State).1.depth = c10State.depth ∧
      (unblockEventsIfNecessary c10State).1.unblockingEvents = true ∧
      (runOps [Op.push evtB, Op.unblock, Op.beginSend, Op.endSend, Op.unblock]
          (unblockEventsIfNecessary c10State).1).log =
        (unblockEventsIfNecessary c10State).1.log := by
  have hd : drainLoop c10State.queue = ([1, 2], some [evtC]) := by
    simp [c10State, drainLoop, evtA, evtRaise, evtC, Evt.raises, Evt.pushes, Evt.id]
  have h := c10_exception_abandons_drain c10State [1, 2] [evtC] rfl rfl hd
  exact ⟨rfl, rfl, hd, h.1, h.2.1, h.2.2.1, h.2.2.2.1, h.2.2.2.2.1,
    h.2.2.2.2.2 _⟩

/-- The steps of one full round of blocking: a sync send during which one
async event gets queued, followed by the scheduled post-call drain turn. -/
def roundOps (e : Evt) : List Op :=
  [Op.beginSend, Op.push e, Op.endSend, Op.unblock]

/-- C2: the claim says every round of blocking drains the queue exactly
once, the drain decrementing depth and clearing the actively-draining
guard so a later round's drain can run. The code violates this: line 154
assigns `unblockingEvents = true` again instead of clearing it, so after
the first round's drain the guard stays set; in the second round the
scheduled drain turn clears `mustUnblockEventsNow` but skips the drain —
the queued event is never invoked, stays queued, and depth is never
decremented. This theorem evaluates the embedded code on that failing
input: round one drains (log [1]) but leaves the guard set; after round
two the log is unchanged, event 5 is still queued, and depth is stuck
at 1. -/
theorem c2_second_round_drain_missed :
    (runOps (roundOps evtA) pInit).log = [1] ∧
      (runOps (roundOps evtA) pInit).depth = 0 ∧
      (runOps (roundOps evtA) pInit).unblockingEvents = true ∧
      (runOps (roundOps evtA ++ roundOps evtB) pInit).log = [1] ∧
      (runOps (roundOps evtA ++ roundOps evtB) pInit).queue = [evtB] ∧
      (runOps (roundOps evtA ++ roundOps evtB) pInit).depth = 1 ∧
      (runOps (roundOps evtA ++ roundOps evtB) pInit).mustUnblockEventsNow = false := by
  simp [roundOps, runOps, runOp, unblockEventsIfNecessary, pInit,
    evtA, evtB, drainLoop, Evt.raises, Evt.pushes, Evt.id]

/-- The steps of the C3 scenario: an outer sync send during which an async
event (id 1) is queued, then a nested sync send starts and ends while depth
is already 1, then another async event (id 3) is queued, the outer send
ends, and a drain turn fires. -/
def c3Ops : List Op :=
  [Op.beginSend, Op.push evtA, Op.beginSend, Op.endSend,
   Op.push evtC, Op.endSend, Op.unblock]

/-- C3: the claim says a nested synchronous send (depth already ≥ 1)
reuses the existing pending queue, so items queued before the nested call
remain queued, in order, and are still delivered, a fresh queue being
allocated only on the 0→1 transition. The code violates this: the sync
branch of `send` executes `currentlyBlockedEvents = []` unconditionally
(line 178), so the nested send replaces the queue and the already-queued
closure is dropped. This theorem evaluates the embedded code on that
failing input: after the scenario the queue holds only the event queued
after the nested call, the invocation log is empty (event 1 was never
delivered, even by the trailing drain turn), and — the nested send having
also broken the depth bookkeeping — depth is stuck at 2 with no drain
ever requested. -/
theorem c3_nested_send_discards_pending_queue :
    (runOps c3Ops pInit).queue = [evtC] ∧
      (runOps c3Ops pInit).log = [] ∧
      (runOps c3Ops pInit).depth = 2 ∧
      (runOps c3Ops pInit).mustUnblockEventsNow = false := by
  simp [c3Ops, runOps, runOp, unblockEventsIfNecessary, pInit,
    evtA, evtC, drainLoop, Evt.raises, Evt.pushes, Evt.id]

/-- The record stored in `XHRStateSpoofs` for one XHR (src lines 80-89):
each field may be `undefined` (`none`). After a replay both fields are
reset to `undefined`, so an entry can be present with both fields absent. -/
structure Spoof where
  readyState : Option Nat
  responseTextLength : Option Nat
deriving DecidableEq

/-- src lines 95-103, the patched `readyState` getter: when
`XHRStateSpoofs` has an entry for the XHR, read its `readyState` field into
`override`, then return `override || oldXHRRS.call(this)` — JS `||` falls
through to the live value whenever the override is falsy, i.e. absent
(`undefined`) or 0. -/
def readyStateGetter (spoof : Option Spoof) (live : Nat) : Nat :=
  match spoof with
  | none => live
  | some sp =>
    match sp.readyState with
    | none => live
    | some v => if v = 0 then live else v

/-- src lines 111-125, the patched `responseText` getter: read the live
text; when a spoof entry exists and carries a `responseTextLength`, return
the live text itself if the captured length equals its length, else
`text.substr(0, length)` — the first `length` characters. The text is a
list of characters (JS code units). -/
def responseTextGetter (spoof : Option Spoof) (text : List Char) : List Char :=
  match spoof with
  | none => text
  | some sp =>
    match sp.responseTextLength with
    | none => text
    | some n => if n = text.length then text else text.take n

/-- C4 counterexample: a request with an installed Capture whose captured
stage is 0 — the claim requires the completion-stage accessor to return the
captured stage for every captured value including 0, but the getter's JS
`||` treats the captured 0 as falsy and returns the live value (here 4)
instead. -/
theorem c4_counterexample_stage_zero :
    readyStateGetter (some { readyState := some 0, responseTextLength := none }) 4 = 4 ∧
      readyStateGetter (some { readyState := some 0, responseTextLength := none }) 4 ≠ 0 :=
  ⟨rfl, by decide⟩

/-- C4 (amended): whenever a request has an installed Capture whose
captured stage is nonzero, the completion-stage accessor returns the
captured stage (a captured stage of 0, or an absent captured stage, falls
back to the live value); whenever the Capture carries a captured length N,
the partial-response accessor returns exactly the first N characters of the
live response — in particular the full response when N equals its full
length; with no Capture installed (or the respective field absent) both
accessors return the live values unchanged. -/
theorem c4_accessors_report_captured_state :
    (∀ (sp : Spoof) (live v : Nat), sp.readyState = some v → v ≠ 0 →
        readyStateGetter (some sp) live = v) ∧
      (∀ live, readyStateGetter none live = live) ∧
      (∀ (sp : Spoof) (live : Nat), sp.readyState = none →
        readyStateGetter (some sp) live = live) ∧
      (∀ (sp : Spoof) (text : List Char) (n : Nat), sp.responseTextLength = some n →
        responseTextGetter (some sp) text = text.take n) ∧
      (∀ text, responseTextGetter none text = text) ∧
      (∀ (sp : Spoof) (text : List Char), sp.responseTextLength = none →
        responseTextGetter (some sp) text = text) := by
  refine ⟨?_, ?_, ?_, ?_, ?_, ?_⟩
  · intro sp live v hv h0
    simp [readyStateGetter, hv, h0]
  · intro live; rfl
  · intro sp live h
    simp [readyStateGetter, h]
  · intro sp text n hn
    by_cases h : n = text.length
    · simp [responseTextGetter, hn, h]
    · simp [responseTextGetter, hn, h]
  · intro text; rfl
  · intro sp text h
    simp [responseTextGetter, h]

theorem c4_accessors_report_captured_state_witness :
    (Spoof.mk (some 3) (some 2)).readyState = some 3 ∧
      (3 : Nat) ≠ 0 ∧
      readyStateGetter (some (Spoof.mk (some 3) (some 2))) 4 = 3 ∧
      readyStateGetter none 4 = 4 ∧
      (Spoof.mk (some 3) (some 2)).responseTextLength = some 2 ∧
      responseTextGetter (some (Spoof.mk (some 3) (some 2)))
          ['a', 'b', 'c', 'd'] = (['a', 'b', 'c', 'd'] : List Char).take 2 ∧
      responseTextGetter none ['a', 'b'] = ['a', 'b'] := by
  have h := c4_accessors_report_captured_state
  exact ⟨rfl, by decide, h.1 _ 4 3 rfl (by decide), h.2.1 4, rfl,
    h.2.2.2.1 _ ['a', 'b', 'c', 'd'] 2 rfl, h.2.2.2.2.1 ['a', 'b']⟩

/-- The argument the host passes to a completion handler (`args[0]`): its
`type` string and, for progress events, the `loaded` measurement. -/
structure EventArg where
  type : String
  loaded : Nat
deriving DecidableEq

/-- Everything `wrapHandler`'s wrapper reads when the host fires it (src
lines 243-247 and 262-264): the XHR's live readyState, responseType and
responseText length, the first event argument, whether `openSyncXHRs` has
the XHR, and the current `currentlyBlockingOnSyncXHRs` counter. -/
structure WrapperInput where
  readyState : Nat
  responseType : String
  arg0 : Option EventArg
  liveResponseTextLen : Nat
  isSync : Bool
  depth : Int
deriving DecidableEq

/-- src lines 249-258: the spoof record the wrapper computes at invocation
time. readyState is always captured; responseTextLength only for
text-shaped responses (`responseType` empty or "text") — 0 before LOADING
(readyState < 3), the progress event's `loaded` measurement when the first
argument is a progress event, else the live responseText length. -/
def computeSpoofs (inp : WrapperInput) : Spoof :=
  { readyState := some inp.readyState,
    responseTextLength :=
      if inp.responseType = "" ∨ inp.responseType = "text" then
        if inp.readyState < 3 then some 0
        else
          match inp.arg0 with
          | some a =>
            if a.type = "progress" then some a.loaded
            else some inp.liveResponseTextLen
          | none => some inp.liveResponseTextLen
      else none }

/-- One call made to a user handler: via its `handleEvent` member, or by
calling the handler itself (`handler.apply`). -/
inductive HandlerCall where
  | handleEventCall
  | applyCall
deriving DecidableEq

/-- src lines 286-289, the immediate (not blocked) path: the handler is
invoked exactly once — via `handleEvent` when present (early `return`),
else by calling it. -/
def immediateCalls (hasHandleEvent : Bool) : List HandlerCall :=
  if hasHandleEvent then [HandlerCall.handleEventCall] else [HandlerCall.applyCall]

/-- src lines 271-275, the body of the deferred replay closure: there is no
early return, so when `handler.handleEvent` is present the closure calls it
and then also falls through to `handler.apply(this, args)`. -/
def deferredCalls (hasHandleEvent : Bool) : List HandlerCall :=
  if hasHandleEvent then [HandlerCall.handleEventCall, HandlerCall.applyCall]
  else [HandlerCall.applyCall]

/-- Outcome of one invocation of the wrapper produced by `wrapHandler`:
either the original handler ran immediately (with the listed calls), or a
replay closure was pushed onto `currentlyBlockedEvents`, recording the
captured spoof it will install and the calls it will make when drained. -/
inductive WrapOutcome where
  | ranNow (calls : List HandlerCall)
  | queuedReplay (captured : Spoof) (callsOnReplay : List HandlerCall)
deriving DecidableEq

/-- src lines 241-292, `wrapHandler`: compute the spoofs, then — the admit
decision of line 264 — if the XHR is not in `openSyncXHRs` and
`currentlyBlockingOnSyncXHRs` is truthy (nonzero), push a replay closure;
otherwise invoke the original handler immediately. -/
def wrapperInvoke (inp : WrapperInput) (hasHandleEvent : Bool) : WrapOutcome :=
  let sp := computeSpoofs inp
  if !inp.isSync && inp.depth != 0 then
    WrapOutcome.queuedReplay sp (deferredCalls hasHandleEvent)
  else
    WrapOutcome.ranNow (immediateCalls hasHandleEvent)

/-- C5: a completion signal belonging to a request classified synchronous
is never deferred — whatever the blocking depth and the rest of the
invocation-time state, the wrapper takes the run-now branch and invokes the
original handler immediately rather than queueing it. -/
theorem c5_sync_signal_never_deferred (inp : WrapperInput) (hasHE : Bool)
    (h : inp.isSync = true) :
    wrapperInvoke inp hasHE = WrapOutcome.ranNow (immediateCalls hasHE) := by
  simp [wrapperInvoke, h]

def c5Input : WrapperInput :=
  { readyState := 4, responseType := "", arg0 := none,
    liveResponseTextLen := 7, isSync := true, depth := 3 }

theorem c5_sync_signal_never_deferred_witness :
    c5Input.isSync = true ∧
      wrapperInvoke c5Input true = WrapOutcome.ranNow (immediateCalls true) :=
  ⟨rfl, c5_sync_signal_never_deferred c5Input true rfl⟩

def c6Input : WrapperInput :=
  { readyState := 3, responseType := "",
    arg0 := some { type := "progress", loaded := 5 },
    liveResponseTextLen := 9, isSync := false, depth := 1 }

/-- C6: the claim says every intercepted signal is delivered exactly once,
a deferred handler — plain callable or object exposing `handleEvent` —
being invoked exactly once per signal. The code violates this for deferred
`handleEvent` handlers: the replay closure (src lines 271-275) lacks the
early return of the immediate path (lines 286-289), so it calls
`handler.handleEvent(args)` and then also `handler.apply(this, args)`.
This theorem evaluates the embedded code at the failing input: a blocked
async progress signal whose handler exposes `handleEvent` is queued with a
replay that performs two handler calls, while the immediate path performs
one. -/
theorem c6_deferred_handler_invoked_twice :
    wrapperInvoke c6Input true =
        WrapOutcome.queuedReplay (computeSpoofs c6Input)
          [HandlerCall.handleEventCall, HandlerCall.applyCall] ∧
      (deferredCalls true).length = 2 ∧
      (immediateCalls true).length = 1 := by
  refine ⟨?_, rfl, rfl⟩
  simp [wrapperInvoke, c6Input, deferredCalls]

/-- A value handed to the underlying host `send`: an ordinary body argument
forwarded as itself, or the JS `arguments` object passed as a single value.
Body arguments are abstract (numbered). -/
inductive SentArg where
  | bodyVal (v : Nat)
  | argsObject (vs : List Nat)
deriving DecidableEq

/-- src lines 181 and 207: the argument list the patched `send` hands to
the host `send`, given the caller's argument list. On the sync branch it is
`oldXHRSend.call(this)` — no arguments at all; on the async branch it is
`oldXHRSend.call(this, arguments)` — the `arguments` object itself passed
as the one and only argument. -/
def sendUnderlyingArgs (isSyncOpen : Bool) (callerArgs : List Nat) : List SentArg :=
  if isSyncOpen then [] else [SentArg.argsObject callerArgs]

/-- C7: the claim says the underlying host `send` is invoked with exactly
the body argument(s) the caller passed, unchanged, for both classifications
— i.e. the forwarded list should be `[SentArg.bodyVal 7]` when the caller
passed body 7. The code violates this on both branches: the sync branch
drops the body entirely, and the async branch passes the `arguments` object
as the body instead of spreading it (`call` where `apply` was meant). This
theorem evaluates the embedded code at the failing input `send(7)`. -/
theorem c7_send_body_not_forwarded :
    sendUnderlyingArgs true [7] = [] ∧
      sendUnderlyingArgs false [7] = [SentArg.argsObject [7]] ∧
      sendUnderlyingArgs true [7] ≠ [SentArg.bodyVal 7] ∧
      sendUnderlyingArgs false [7] ≠ [SentArg.bodyVal 7] := by decide

/-- A user handler reference assigned to an `on*` slot: `null`, or a
handler identified by number. -/
inductive HRef where
  | jsNull
  | fn (id : Nat)
deriving DecidableEq

/-- The fresh wrapper `wrapHandler(handler, name)` produces at assignment
time (src line 340): a function closing over the assigned handler — also
when that handler is `null`. -/
structure WrappedHandler where
  original : HRef
deriving DecidableEq

/-- The state of one `on*` property override (src lines 334-345): the
single `currentHandler` variable captured by the per-event-name closure —
shared by every XHR instance — plus, per XHR (numbered), the wrapper the
host's native setter currently has installed in that XHR's slot. -/
structure OnSlotState where
  currentHandler : Option HRef
  native : Nat → Option WrappedHandler

/-- src lines 338-341, the `on*` setter: record the handler in the shared
`currentHandler`, and install a freshly wrapped version in this XHR's host
slot via the native setter. `null` is not special-cased:
`wrapHandler(null, name)` is still a function, so the native slot receives
a live wrapper rather than being cleared. -/
def onSetter (s : OnSlotState) (xhrId : Nat) (h : HRef) : OnSlotState :=
  { currentHandler := some h,
    native := fun x => if x = xhrId then some { original := h } else s.native x }

/-- src lines 342-344, the `on*` getter: return the shared
`currentHandler`, ignoring which XHR instance it is read from. -/
def onGetter (s : OnSlotState) (_xhrId : Nat) : Option HRef :=
  s.currentHandler

/-- Slot state before any assignment. -/
def slotInit : OnSlotState := { currentHandler := none, native := fun _ => none }

/-- C8: the claim says reading an `on*` slot on a request returns the last
original handler assigned to that request's own slot, and that assigning
null clears the slot so no handler fires. The code violates both: the
getter reads the one `currentHandler` variable shared across all XHR
instances of that event name, and assigning null installs
`wrapHandler(null)` — a live wrapper — in the host slot. This theorem
evaluates the embedded code at the failing input: after `xhr1.onX = fn 10;
xhr2.onX = fn 20`, reading xhr1's slot yields `fn 20`, not `fn 10`; and
after assigning null to xhr1, its host slot still holds an installed
wrapper, not nothing. -/
theorem c8_on_slot_shared_across_requests :
    onGetter (onSetter (onSetter slotInit 1 (HRef.fn 10)) 2 (HRef.fn 20)) 1 =
        some (HRef.fn 20) ∧
      onGetter (onSetter (onSetter slotInit 1 (HRef.fn 10)) 2 (HRef.fn 20)) 1 ≠
        some (HRef.fn 10) ∧
      (onSetter slotInit 1 HRef.jsNull).native 1 = some { original := HRef.jsNull } ∧
      (onSetter slotInit 1 HRef.jsNull).native 1 ≠ none := by
  refine ⟨rfl, by decide, by simp [onSetter, slotInit], by simp [onSetter, slotInit]⟩

/-- A JS value passed as the third (`async`) argument of `open`: enough
constructors to express the falsy/truthy distinction `!arguments[2]` turns
on (src line 135). -/
inductive JSArg where
  | undef
  | jsNull
  | boolean (b : Bool)
  | number (n : Int)
  | str (s : List Char)
deriving DecidableEq

/-- JS truthiness of a third argument: `undefined`, `null`, `false`, 0 and
the empty string are falsy; everything else here is truthy. -/
def jsTruthy : JSArg → Bool
  | .undef => false
  | .jsNull => false
  | .boolean b => b
  | .number n => n != 0
  | .str s => s != []

/-- src lines 134-137, the patched `open`: when called with more than two
arguments and a falsy third argument, add the XHR to `openSyncXHRs` (a
WeakMap used as a set; nothing is ever deleted from it). The result is the
new value of `openSyncXHRs.has(xhr)` given the previous one. -/
def openClassify (alreadySync : Bool) (argCount : Nat) (arg2 : JSArg) : Bool :=
  if decide (argCount > 2) && !jsTruthy arg2 then true else alreadySync

theorem openClassify_eq (b : Bool) (argCount : Nat) (arg2 : JSArg) :
    openClassify b argCount arg2 =
      (b || (decide (argCount > 2) && !jsTruthy arg2)) := by
  cases hcond : decide (argCount > 2) && !jsTruthy arg2 <;>
    simp [openClassify, hcond]

/-- Classification of a request after a sequence of `open` calls on it,
each given by its argument count and third argument; a fresh request is not
in `openSyncXHRs`. -/
def openSeq (calls : List (Nat × JSArg)) : Bool :=
  calls.foldl (fun acc c => openClassify acc c.1 c.2) false

/-- C9 counterexample: an open call with explicit false marks the request
synchronous, and a later open call on the same request with the
asynchronous argument explicitly true leaves it classified synchronous —
the claim requires the later call to classify it asynchronous again
(`openSeq ... = false`). The second conjunct shows true alone never marks. -/
theorem c9_counterexample_reopen_does_not_clear :
    openSeq [(3, JSArg.boolean false), (3, JSArg.boolean true)] = true ∧
      openSeq [(3, JSArg.boolean true)] = false := by decide

/-- C9 (amended): after any sequence of open calls, the request is
classified synchronous if and only if some call in the sequence passed an
explicit third argument (argument count > 2) that is falsy — explicit
false, but equally explicit undefined, null, 0 or empty string; the marking
is never cleared by later open calls, and an absent third argument leaves
the classification unchanged. -/
theorem c9_sync_iff_some_falsy_third_arg (calls : List (Nat × JSArg)) :
    openSeq calls = calls.any fun c => decide (c.1 > 2) && !jsTruthy c.2 := by
  suffices h : ∀ b, calls.foldl (fun acc c => openClassify acc c.1 c.2) b =
      (b || calls.any fun c => decide (c.1 > 2) && !jsTruthy c.2) by
    simpa [openSeq] using h false
  induction calls with
  | nil => simp
  | cons c cs ih =>
    intro b
    rw [List.foldl_cons, openClassify_eq, ih]
    simp [List.any_cons, Bool.or_assoc]
